import Mathlib

/-!
Shallow embedding of the azle marketplace canister
(`src/dfinity_js_backend/src/index.ts`) and proofs about its
order/payment reconciliation protocol.

Modelling conventions:
* `Principal` is modelled as `Nat`; binary ledger addresses are also `Nat`.
* The three `StableBTreeMap`s become functions `key → Option value`;
  `insert`/`remove` are pointwise functional updates, which matches the
  atomic remove-and-return semantics of the map primitives.
* The non-cryptographic `hash` function from the `hashcode` package and
  `binaryAddressFromPrincipal` are kept abstract: they are fields of a
  context `Ctx` that every operation takes as a parameter, so no collision
  behaviour is baked in.  `hashAddr` takes an `Option` argument because the
  source applies `hash` to `operation.Transfer?.from`, which is `undefined`
  when the block's operation is not a transfer.
* Cross-canister ledger calls (`icpCanister.query_blocks`) are modelled by
  passing the ledger's response in as an argument (`Except Unit
  QueryBlocksResponse`, `Except.error` standing for any ledger error).
* A thrown JS exception in an update call traps the canister message and
  the IC rolls the whole message back; `completePurchase` therefore returns
  a three-way outcome `Ok / Err / Trap`, with the pre-state restored on
  `Trap`.
* `ic.setTimer` callbacks run as separate canister messages; a timer firing
  is a separate event (`discardByTimeoutFire`) in the trace semantics.
-/

namespace Marketplace

abbrev Principal := Nat

/-- The `Product` record of the source. -/
structure Product where
  id : String
  title : String
  description : String
  location : String
  price : Nat
  seller : Principal
  attachmentURL : String
  soldAmount : Nat
  deriving DecidableEq, Repr

/-- The `ProductPayload` record of the source. -/
structure ProductPayload where
  title : String
  description : String
  location : String
  price : Nat
  attachmentURL : String
  deriving DecidableEq, Repr

/-- The `OrderStatus` variant: `PaymentPending: "PAYMENT_PENDING"` or
`Completed: "COMPLETED"` (the string payloads are the fixed constants shown,
so the variant tag alone carries the information). -/
inductive OrderStatus where
  | PaymentPending
  | Completed
  deriving DecidableEq, Repr

/-- The `Order` record of the source. -/
structure Order where
  productId : String
  price : Nat
  status : OrderStatus
  seller : Principal
  paid_at_block : Option Nat
  memo : Nat
  deriving DecidableEq, Repr

/-- The `Message` variant of the source. -/
inductive Message where
  | NotFound (s : String)
  | InvalidPayload (s : String)
  | PaymentFailed (s : String)
  | PaymentCompleted (s : String)
  deriving DecidableEq, Repr

/-- Ledger `Tokens`: `{ e8s : nat64 }`. -/
structure Tokens where
  e8s : Nat
  deriving DecidableEq, Repr

/-- The payload of a ledger `Transfer` operation (`from`, `to`, `amount`).
`from` is a Lean keyword, hence `fromAddr`/`toAddr`. -/
structure TransferOp where
  fromAddr : Nat
  toAddr : Nat
  amount : Tokens
  deriving DecidableEq, Repr

/-- A ledger block operation.  The source only ever accesses
`operation.Transfer?...`, so the model records exactly the `Transfer`
component; `Transfer = none` covers `Mint`/`Burn` operations. -/
structure Operation where
  Transfer : Option TransferOp
  deriving DecidableEq, Repr

/-- A ledger transaction: `{ memo, operation: Opt<Operation> }`. -/
structure Transaction where
  memo : Nat
  operation : Option Operation
  deriving DecidableEq, Repr

/-- A ledger block. -/
structure LedgerBlock where
  transaction : Transaction
  deriving DecidableEq, Repr

/-- The ledger's `query_blocks` response (the `blocks` field). -/
structure QueryBlocksResponse where
  blocks : List LedgerBlock
  deriving DecidableEq, Repr

/-- The ambient helpers the canister uses: the `hashcode` hash applied to a
binary address (`hashAddr`, `none` standing for JS `undefined`), the same
hash applied to a correlation string (`hashStr`), and
`binaryAddressFromPrincipal (·, 0)` (`binFromPrincipal`). -/
structure Ctx where
  hashAddr : Option Nat → Nat
  hashStr : String → Nat
  binFromPrincipal : Principal → Nat

/-- The canister's stable state: `productsStorage`, `persistedOrders`
(keyed by the buyer's principal), `pendingOrders` (keyed by memo), plus the
set of scheduled expiry timers `(memo, delay)` created by `ic.setTimer`. -/
structure State where
  productsStorage : String → Option Product
  persistedOrders : Principal → Option Order
  pendingOrders : Nat → Option Order
  timers : List (Nat × Nat)

/-- The state of a freshly deployed canister: all maps empty. -/
def initState : State :=
  { productsStorage := fun _ => none
    persistedOrders := fun _ => none
    pendingOrders := fun _ => none
    timers := [] }

/-- Pointwise insert into a map modelled as `key → Option value`. -/
def mapInsert {K V : Type} [DecidableEq K] (m : K → Option V) (k : K) (v : V) :
    K → Option V :=
  fun x => if x = k then some v else m x

/-- Pointwise remove. -/
def mapRemove {K V : Type} [DecidableEq K] (m : K → Option V) (k : K) :
    K → Option V :=
  fun x => if x = k then none else m x

/-- Constant `ORDER_RESERVATION_PERIOD = 120n` — reservation period in seconds. -/
def ORDER_RESERVATION_PERIOD : Nat := 120

/-- Model of `Object.keys(payload).length` for a candid-decoded `ProductPayload`:
decoding guarantees a record with exactly its five declared fields, so the
count is the constant 5 and the source's empty-object guard is never taken
for a decoded payload. -/
def objectKeysLength (_p : ProductPayload) : Nat := 5

/-- Operation `addProduct`: builds the product with a fresh id (`uuidv4()`, supplied
here as the parameter `freshId`), `soldAmount = 0` and `seller = ic.caller()`,
and inserts it.  The guard returns `Err { NotFound: "invalid payoad" }` when
the payload is not an object or has no keys. -/
def addProduct (caller : Principal) (freshId : String) (payload : ProductPayload)
    (s : State) : Except Message Product × State :=
  if objectKeysLength payload = 0 then
    (Except.error (Message.NotFound "invalid payoad"), s)
  else
    let product : Product :=
      { id := freshId, soldAmount := 0, seller := caller,
        title := payload.title, description := payload.description,
        location := payload.location, price := payload.price,
        attachmentURL := payload.attachmentURL }
    (Except.ok product,
     { s with productsStorage := mapInsert s.productsStorage product.id product })

/-- The product record `addProduct` builds from a payload: fresh id,
`soldAmount = 0`, `seller = caller`, all other fields from the payload. -/
def productOf (caller : Principal) (freshId : String) (payload : ProductPayload) : Product :=
  { id := freshId, soldAmount := 0, seller := caller,
    title := payload.title, description := payload.description,
    location := payload.location, price := payload.price,
    attachmentURL := payload.attachmentURL }

/-- Operation `getProduct`. -/
def getProduct (id : String) (s : State) : Except Message Product :=
  match s.productsStorage id with
  | some product => Except.ok product
  | none => Except.error (Message.NotFound ("product with id=" ++ id ++ " not found"))

/-- Helper `generateCorrelationId`: the hash of
`` `${productId}_${ic.caller().toText()}_${ic.time()}` ``. -/
def generateCorrelationId (ctx : Ctx) (caller : Principal) (time : Nat)
    (productId : String) : Nat :=
  ctx.hashStr (productId ++ "_" ++ toString caller ++ "_" ++ toString time)

/-- Operation `createOrder`: looks the product up; on success builds the pending
order, inserts it under its memo and schedules the expiry timer
(`discardByTimeout(order.memo, ORDER_RESERVATION_PERIOD)`). -/
def createOrder (ctx : Ctx) (caller : Principal) (time : Nat) (id : String)
    (s : State) : Except Message Order × State :=
  match s.productsStorage id with
  | some product =>
    let order : Order :=
      { productId := product.id, price := product.price,
        status := OrderStatus.PaymentPending, seller := product.seller,
        paid_at_block := none,
        memo := generateCorrelationId ctx caller time id }
    (Except.ok order,
     { s with pendingOrders := mapInsert s.pendingOrders order.memo order,
              timers := (order.memo, ORDER_RESERVATION_PERIOD) :: s.timers })
  | none =>
    (Except.error (Message.NotFound ("cannot create the order: product=" ++ id ++ " not found")), s)

/-- The body of the timer callback installed by `discardByTimeout`:
`pendingOrders.remove(memo)` — an atomic remove-and-return (the removed
value is only logged). -/
def discardByTimeoutFire (memo : Nat) (s : State) : Option Order × State :=
  (s.pendingOrders memo, { s with pendingOrders := mapRemove s.pendingOrders memo })

/-- The predicate of the `blocks.find?` inside `verifyPayment`: the block's
transaction has an operation, the expected memo, the hashed caller-derived
sender address equals the hash of `operation.Transfer?.from`, the hashed
receiver-derived address equals the hash of `operation.Transfer?.to`, and
the transferred amount equals the expected one (`operation.Transfer?.amount.e8s`
is `undefined` for a non-transfer operation, and `bigint === undefined` is
`false`). -/
def matchesTransfer (ctx : Ctx) (caller receiver : Principal)
    (amount memo : Nat) (b : LedgerBlock) : Bool :=
  match b.transaction.operation with
  | some operation =>
    b.transaction.memo == memo
      && ctx.hashAddr (some (ctx.binFromPrincipal caller))
           == ctx.hashAddr (Option.map TransferOp.fromAddr operation.Transfer)
      && ctx.hashAddr (some (ctx.binFromPrincipal receiver))
           == ctx.hashAddr (Option.map TransferOp.toAddr operation.Transfer)
      && (match operation.Transfer with
          | some t => amount == t.amount.e8s
          | none => false)
  | none => false

/-- Operation `verifyPayment`: queries the single block at `block` (the ledger's
answer is the parameter `resp`), and searches the returned blocks for one
matching the expected memo, hashed sender address, hashed receiver address
and amount; any ledger error yields `false`. -/
def verifyPayment (ctx : Ctx) (caller receiver : Principal)
    (amount _block memo : Nat) (resp : Except Unit QueryBlocksResponse) : Bool :=
  match resp with
  | Except.ok blockData =>
    (blockData.blocks.find? (matchesTransfer ctx caller receiver amount memo)).isSome
  | Except.error _ => false

/-- Helper `updateSoldAmount`: bumps `soldAmount` of the product stored under
`productId`; `none` models the `throw Error(...)` taken when the product is
absent. -/
def updateSoldAmount (productId : String) (store : String → Option Product) :
    Option (String → Option Product) :=
  match store productId with
  | some product =>
    some (mapInsert store product.id { product with soldAmount := product.soldAmount + 1 })
  | none => none

/-- Outcome of a `completePurchase` message: a returned `Ok`/`Err` result,
or a trap (uncaught JS exception), after which the IC restores the
canister's pre-message state. -/
inductive CPOutcome where
  | Ok (o : Order)
  | Err (m : Message)
  | Trap (s : String)
  deriving DecidableEq, Repr

/-- Operation `completePurchase(seller, id, price, block, memo)` by `caller`:
verifies the payment first (returning `Err NotFound` on failure with the
state untouched); then atomically removes the pending order under `memo`
(`Err NotFound` when absent); then runs `updateSoldAmount id` — whose
`throw` on a missing product traps the message, rolling every effect back —
and finally records the completed order under the caller's principal. -/
def completePurchase (ctx : Ctx) (caller seller : Principal) (id : String)
    (price block memo : Nat) (resp : Except Unit QueryBlocksResponse)
    (s : State) : CPOutcome × State :=
  if verifyPayment ctx caller seller price block memo resp then
    match s.pendingOrders memo with
    | some order =>
      match updateSoldAmount id s.productsStorage with
      | some store' =>
        let updatedOrder : Order :=
          { order with status := OrderStatus.Completed, paid_at_block := some block }
        (CPOutcome.Ok updatedOrder,
         { s with pendingOrders := mapRemove s.pendingOrders memo,
                  productsStorage := store',
                  persistedOrders := mapInsert s.persistedOrders caller updatedOrder })
      | none =>
        (CPOutcome.Trap ("product with id=" ++ id ++ " not found"), s)
    | none =>
      (CPOutcome.Err (Message.NotFound
        ("cannot complete the purchase: there is no pending order with id=" ++ id)), s)
  else
    (CPOutcome.Err (Message.NotFound
      ("cannot complete the purchase: cannot verify the payment, memo=" ++ toString memo)), s)

/-- Operation `updateProduct(payload)`: looks up `payload.id`; on success stores the
caller-supplied payload wholesale under the found product's id (no ownership
check, no field preserved). -/
def updateProduct (payload : Product) (s : State) : Except Message Product × State :=
  match s.productsStorage payload.id with
  | some product =>
    (Except.ok payload,
     { s with productsStorage := mapInsert s.productsStorage product.id payload })
  | none =>
    (Except.error (Message.NotFound
      ("cannot update the product: product with id=" ++ payload.id ++ " not found")), s)

/-- Operation `deleteProduct(id)`. -/
def deleteProduct (id : String) (s : State) : Except Message String × State :=
  match s.productsStorage id with
  | some deletedProduct =>
    (Except.ok deletedProduct.id,
     { s with productsStorage := mapRemove s.productsStorage id })
  | none =>
    (Except.error (Message.NotFound
      ("cannot delete the product: product with id=" ++ id ++ " not found")), s)

/-! ## Trace semantics

The IC executes a canister's messages sequentially; an `await` splits an
update into atomic segments, and timer callbacks are messages of their own.
A behaviour of the canister is therefore a sequence of events, each applied
atomically to the state.  External nondeterminism (caller principal, uuid,
`ic.time()`, the ledger's response to `query_blocks`) is carried on the
event. -/

/-- One externally triggered message. -/
inductive Event where
  | add (caller : Principal) (freshId : String) (payload : ProductPayload)
  | update (payload : Product)
  | delete (id : String)
  | create (caller : Principal) (time : Nat) (id : String)
  | complete (caller seller : Principal) (id : String) (price block memo : Nat)
      (resp : Except Unit QueryBlocksResponse)
  | expire (memo : Nat)

/-- State transition of a single event. -/
def step (ctx : Ctx) (s : State) (e : Event) : State :=
  match e with
  | Event.add caller freshId payload => (addProduct caller freshId payload s).2
  | Event.update payload => (updateProduct payload s).2
  | Event.delete id => (deleteProduct id s).2
  | Event.create caller time id => (createOrder ctx caller time id s).2
  | Event.complete caller seller id price block memo resp =>
      (completePurchase ctx caller seller id price block memo resp s).2
  | Event.expire memo => (discardByTimeoutFire memo s).2

/-- Execution of a trace of events. -/
def exec (ctx : Ctx) (s : State) (tr : List Event) : State :=
  tr.foldl (step ctx) s

/-- Predicate: `e` is a successful `completePurchase` message by `buyer` run in state
`s` that produced the completed order `o`: its payment verification (for
`buyer` as sender, the given seller, price and memo, against the ledger's
response) returned `true`, and the pending order stored under the memo was
present before the step and absent — removed by this very step — after it. -/
def completionEvent (ctx : Ctx) (s : State) (buyer : Principal) (o : Order)
    (e : Event) : Prop :=
  ∃ seller id price block memo resp,
    e = Event.complete buyer seller id price block memo resp ∧
    verifyPayment ctx buyer seller price block memo resp = true ∧
    ∃ ord, s.pendingOrders memo = some ord ∧
      (step ctx s e).pendingOrders memo = none ∧
      o = { ord with status := OrderStatus.Completed, paid_at_block := some block }

/-- Predicate: `e` is a `createOrder` message whose generated correlation id is `memo`
(the only kind of event that inserts into `pendingOrders` under `memo`). -/
def createsMemo (ctx : Ctx) (memo : Nat) : Event → Bool
  | Event.create caller time id => generateCorrelationId ctx caller time id == memo
  | _ => false

/-! ## Concrete data used to instantiate hypotheses -/

/-- A concrete context: identity address derivation, `getD 0` as the
address hash, string length as the string hash. -/
def ctx0 : Ctx :=
  { hashAddr := fun a => a.getD 0, hashStr := String.length,
    binFromPrincipal := fun p => p }

/-- A concrete product payload. -/
def payload0 : ProductPayload :=
  { title := "t", description := "d", location := "l", price := 500000000,
    attachmentURL := "u" }

/-- A concrete payload whose required fields are all empty strings. -/
def payloadEmpty : ProductPayload :=
  { title := "", description := "", location := "", price := 0, attachmentURL := "" }

/-- The product `addProduct 1 "px" payloadEmpty` builds. -/
def productEmpty : Product :=
  { id := "px", soldAmount := 0, seller := 1, title := "", description := "",
    location := "", price := 0, attachmentURL := "" }

/-- A concrete ledger transfer from principal 1 to principal 2 under `ctx0`. -/
def transfer0 : TransferOp :=
  { fromAddr := 1, toAddr := 2, amount := { e8s := 500000000 } }

/-- A ledger block holding `transfer0` with memo 6
(`generateCorrelationId ctx0 1 0 "p1" = 6`). -/
def block0 : LedgerBlock :=
  { transaction := { memo := 6, operation := some { Transfer := some transfer0 } } }

/-- A successful `query_blocks` response containing `block0`. -/
def resp0 : Except Unit QueryBlocksResponse := Except.ok { blocks := [block0] }

/-- Seller 2 lists product `"p1"`, buyer 1 reserves it at time 0 (memo 6),
then completes it against `resp0` claiming block 7. -/
def trace0 : List Event :=
  [ Event.add 2 "p1" payload0,
    Event.create 1 0 "p1",
    Event.complete 1 2 "p1" 500000000 7 6 resp0 ]

/-- The completed order `trace0` persists for buyer 1. -/
def o0 : Order :=
  { productId := "p1", price := 500000000, status := OrderStatus.Completed,
    seller := 2, paid_at_block := some 7, memo := 6 }

/-- The state after seller 2 lists `"p1"` and buyer 1 reserves it (memo 6). -/
def s1 : State := exec ctx0 initState [Event.add 2 "p1" payload0, Event.create 1 0 "p1"]

/-- The pending order held in `s1` under memo 6. -/
def ord1 : Order :=
  { productId := "p1", price := 500000000, status := OrderStatus.PaymentPending,
    seller := 2, paid_at_block := none, memo := 6 }

/-- A transfer with memo 7, used for buyer 1's second purchase of `"p1"`
(reserved at time 10, so its correlation id is 7 under `ctx0`). -/
def block7 : LedgerBlock :=
  { transaction := { memo := 7, operation := some { Transfer := some transfer0 } } }

/-- A successful `query_blocks` response containing `block7`. -/
def resp7 : Except Unit QueryBlocksResponse := Except.ok { blocks := [block7] }

/-- Trace `trace0` followed by a second reservation (time 10, memo 7) and a second
completed purchase by the same buyer, claiming block 9. -/
def trace8 : List Event :=
  trace0 ++
  [ Event.create 1 10 "p1",
    Event.complete 1 2 "p1" 500000000 9 7 resp7 ]

/-- The order persisted for buyer 1 after `trace8`. -/
def o8 : Order :=
  { productId := "p1", price := 500000000, status := OrderStatus.Completed,
    seller := 2, paid_at_block := some 9, memo := 7 }

/-- The product stored under `"p1"` in `s1` (seller 2, nothing sold yet). -/
def product1 : Product :=
  { id := "p1", title := "t", description := "d", location := "l",
    price := 500000000, seller := 2, attachmentURL := "u", soldAmount := 0 }

/-- A full `Product` payload for `updateProduct` that reassigns the seller
and the sold amount of `"p1"`. -/
def productNew : Product :=
  { id := "p1", title := "other", description := "x", location := "y",
    price := 1, seller := 99, attachmentURL := "z", soldAmount := 777 }

/-! ## Basic lemmas about the store primitives -/

@[simp]
theorem mapInsert_self {K V : Type} [DecidableEq K] (m : K → Option V) (k : K) (v : V) :
    mapInsert m k v k = some v := by
  simp [mapInsert]

theorem mapInsert_ne {K V : Type} [DecidableEq K] (m : K → Option V) (k x : K) (v : V)
    (h : x ≠ k) : mapInsert m k v x = m x := by
  simp [mapInsert, h]

@[simp]
theorem mapRemove_self {K V : Type} [DecidableEq K] (m : K → Option V) (k : K) :
    mapRemove m k k = none := by
  simp [mapRemove]

theorem mapRemove_ne {K V : Type} [DecidableEq K] (m : K → Option V) (k x : K)
    (h : x ≠ k) : mapRemove m k x = m x := by
  simp [mapRemove, h]

theorem exec_nil (ctx : Ctx) (s : State) : exec ctx s [] = s := rfl

theorem exec_cons (ctx : Ctx) (s : State) (e : Event) (tr : List Event) :
    exec ctx s (e :: tr) = exec ctx (step ctx s e) tr := rfl

/-! ## Characterisation of `completePurchase`

Either the purchase succeeds — payment verified, pending order present,
product present — with the exact success state, or the message leaves the
state untouched (`Err` branches, and the `Trap` branch after the IC's
rollback) and returns no `Ok`. -/

theorem completePurchase_spec (ctx : Ctx) (caller seller : Principal) (id : String)
    (price block memo : Nat) (resp : Except Unit QueryBlocksResponse) (s : State) :
    (∃ ord product,
      verifyPayment ctx caller seller price block memo resp = true ∧
      s.pendingOrders memo = some ord ∧
      s.productsStorage id = some product ∧
      completePurchase ctx caller seller id price block memo resp s =
        (CPOutcome.Ok { ord with status := OrderStatus.Completed, paid_at_block := some block },
         { s with
            pendingOrders := mapRemove s.pendingOrders memo,
            productsStorage := mapInsert s.productsStorage product.id
              { product with soldAmount := product.soldAmount + 1 },
            persistedOrders := mapInsert s.persistedOrders caller
              { ord with status := OrderStatus.Completed, paid_at_block := some block } })) ∨
    ((∀ o, (completePurchase ctx caller seller id price block memo resp s).1 ≠ CPOutcome.Ok o) ∧
      (completePurchase ctx caller seller id price block memo resp s).2 = s) := by
  by_cases hv : verifyPayment ctx caller seller price block memo resp = true
  · cases hp : s.pendingOrders memo with
    | none =>
      right
      simp [completePurchase, hv, hp]
    | some ord =>
      cases hq : s.productsStorage id with
      | none =>
        right
        simp [completePurchase, hv, hp, updateSoldAmount, hq]
      | some product =>
        left
        refine ⟨ord, product, hv, rfl, rfl, ?_⟩
        simp [completePurchase, hv, hp, updateSoldAmount, hq]
  · right
    simp [completePurchase, hv]

/-! ## Frame lemmas: which events touch which store -/

theorem addProduct_persistedOrders (caller : Principal) (freshId : String)
    (payload : ProductPayload) (s : State) :
    (addProduct caller freshId payload s).2.persistedOrders = s.persistedOrders := by
  simp [addProduct, objectKeysLength]

theorem addProduct_pendingOrders (caller : Principal) (freshId : String)
    (payload : ProductPayload) (s : State) :
    (addProduct caller freshId payload s).2.pendingOrders = s.pendingOrders := by
  simp [addProduct, objectKeysLength]

theorem updateProduct_persistedOrders (payload : Product) (s : State) :
    (updateProduct payload s).2.persistedOrders = s.persistedOrders := by
  cases h : s.productsStorage payload.id <;> simp [updateProduct, h]

theorem updateProduct_pendingOrders (payload : Product) (s : State) :
    (updateProduct payload s).2.pendingOrders = s.pendingOrders := by
  cases h : s.productsStorage payload.id <;> simp [updateProduct, h]

theorem deleteProduct_persistedOrders (id : String) (s : State) :
    (deleteProduct id s).2.persistedOrders = s.persistedOrders := by
  cases h : s.productsStorage id <;> simp [deleteProduct, h]

theorem deleteProduct_pendingOrders (id : String) (s : State) :
    (deleteProduct id s).2.pendingOrders = s.pendingOrders := by
  cases h : s.productsStorage id <;> simp [deleteProduct, h]

theorem createOrder_persistedOrders (ctx : Ctx) (caller : Principal) (time : Nat)
    (id : String) (s : State) :
    (createOrder ctx caller time id s).2.persistedOrders = s.persistedOrders := by
  cases h : s.productsStorage id <;> simp [createOrder, h]

theorem discardByTimeoutFire_persistedOrders (memo : Nat) (s : State) :
    (discardByTimeoutFire memo s).2.persistedOrders = s.persistedOrders := rfl

/-- Only a `create` event whose generated correlation id is `memo` can make
`pendingOrders memo` go from `none` to `some`. -/
theorem pendingNone_preserved (ctx : Ctx) (memo : Nat) (s : State) (e : Event)
    (hc : createsMemo ctx memo e = false) (h : s.pendingOrders memo = none) :
    (step ctx s e).pendingOrders memo = none := by
  cases e with
  | add caller freshId payload =>
    rw [step, addProduct_pendingOrders]; exact h
  | update payload =>
    rw [step, updateProduct_pendingOrders]; exact h
  | delete id =>
    rw [step, deleteProduct_pendingOrders]; exact h
  | create caller time id =>
    have hne : generateCorrelationId ctx caller time id ≠ memo := by
      simpa [createsMemo] using hc
    cases hq : s.productsStorage id with
    | none => simp [step, createOrder, hq, h]
    | some product =>
      simp only [step, createOrder, hq]
      rw [mapInsert_ne _ _ _ _ (fun hx => hne hx.symm)]
      exact h
  | complete caller seller id price block memo' resp =>
    rcases completePurchase_spec ctx caller seller id price block memo' resp s with
      ⟨ord, product, _, _, _, heq⟩ | ⟨_, heq⟩
    · rw [step, heq]
      by_cases hm : memo = memo'
      · subst hm; simp
      · simpa [mapRemove_ne _ _ _ hm] using h
    · rw [step, heq]; exact h
  | expire memo' =>
    by_cases hm : memo = memo'
    · subst hm; simp [step, discardByTimeoutFire]
    · simpa [step, discardByTimeoutFire, mapRemove_ne _ _ _ hm] using h

/-- Absence (`pendingOrders memo = none`) is preserved by any trace that contains no
`create` event generating `memo`. -/
theorem pendingNone_preserved_exec (ctx : Ctx) (memo : Nat) :
    ∀ (tr : List Event) (s : State),
      (∀ e ∈ tr, createsMemo ctx memo e = false) →
      s.pendingOrders memo = none →
      (exec ctx s tr).pendingOrders memo = none := by
  intro tr
  induction tr with
  | nil => intro s _ h; exact h
  | cons e tr ih =>
    intro s htr h
    rw [exec_cons]
    exact ih (step ctx s e) (fun x hx => htr x (List.mem_cons_of_mem e hx))
      (pendingNone_preserved ctx memo s e (htr e (List.mem_cons_self e tr)) h)

/-! ## Provenance of persisted orders (for the global invariant) -/

/-- Any order found in `persistedOrders` after running a trace was either
there at the start or was put there by a `completionEvent` occurring in the
trace. -/
theorem persisted_provenance (ctx : Ctx) :
    ∀ (tr : List Event) (s : State) (buyer : Principal) (o : Order),
      (exec ctx s tr).persistedOrders buyer = some o →
      s.persistedOrders buyer = some o ∨
      ∃ pre e post, tr = pre ++ e :: post ∧
        completionEvent ctx (exec ctx s pre) buyer o e := by
  intro tr
  induction tr with
  | nil =>
    intro s buyer o h
    exact Or.inl h
  | cons e tr ih =>
    intro s buyer o h
    rw [exec_cons] at h
    rcases ih (step ctx s e) buyer o h with h' | ⟨pre, ev, post, htr, hce⟩
    · -- the order is already present right after `e`
      cases e with
      | add caller freshId payload =>
        rw [step, addProduct_persistedOrders] at h'
        exact Or.inl h'
      | update payload =>
        rw [step, updateProduct_persistedOrders] at h'
        exact Or.inl h'
      | delete id =>
        rw [step, deleteProduct_persistedOrders] at h'
        exact Or.inl h'
      | create caller time id =>
        rw [step, createOrder_persistedOrders] at h'
        exact Or.inl h'
      | expire memo =>
        rw [step, discardByTimeoutFire_persistedOrders] at h'
        exact Or.inl h'
      | complete caller seller id price block memo resp =>
        rcases completePurchase_spec ctx caller seller id price block memo resp s with
          ⟨ord, product, hv, hp, hq, heq⟩ | ⟨_, heq⟩
        · rw [step, heq] at h'
          dsimp only at h'
          by_cases hb : buyer = caller
          · subst hb
            rw [mapInsert_self] at h'
            refine Or.inr ⟨[], Event.complete buyer seller id price block memo resp, tr,
              rfl, seller, id, price, block, memo, resp, rfl, hv, ord, ?_, ?_, ?_⟩
            · exact hp
            · show (completePurchase ctx buyer seller id price block memo resp s).2.pendingOrders memo = none
              rw [heq]
              simp
            · exact (Option.some_inj.mp h').symm
          · rw [mapInsert_ne _ _ _ _ hb] at h'
            exact Or.inl h'
        · rw [step, heq] at h'
          exact Or.inl h'
    · exact Or.inr ⟨e :: pre, ev, post, by rw [htr]; rfl, hce⟩

/-- Predicate `matchesTransfer` holds exactly when the block has an operation that is
a transfer with the expected memo, hashed addresses and amount. -/
theorem matchesTransfer_iff (ctx : Ctx) (caller receiver : Principal)
    (amount memo : Nat) (b : LedgerBlock) :
    matchesTransfer ctx caller receiver amount memo b = true ↔
    ∃ op t, b.transaction.operation = some op ∧ op.Transfer = some t ∧
      b.transaction.memo = memo ∧
      ctx.hashAddr (some (ctx.binFromPrincipal caller)) = ctx.hashAddr (some t.fromAddr) ∧
      ctx.hashAddr (some (ctx.binFromPrincipal receiver)) = ctx.hashAddr (some t.toAddr) ∧
      amount = t.amount.e8s := by
  cases hop : b.transaction.operation with
  | none => simp [matchesTransfer, hop]
  | some op =>
    cases hT : op.Transfer with
    | none => simp [matchesTransfer, hop, hT]
    | some t =>
      simp only [matchesTransfer, hop, hT, Bool.and_eq_true, beq_iff_eq,
        Option.map_some', Option.some.injEq]
      constructor
      · rintro ⟨⟨⟨hm, hf⟩, ht⟩, ha⟩
        exact ⟨op, t, rfl, hT, hm, hf, ht, ha⟩
      · rintro ⟨op', t', hop', hT', hm, hf, ht, ha⟩
        cases hop'
        rw [hT] at hT'
        cases hT'
        exact ⟨⟨⟨hm, hf⟩, ht⟩, ha⟩

/-- Claim C2: `verifyPayment(receiver, amount, block, memo)` (running as
`caller`) returns `true` iff the ledger query succeeded and some returned
block carries a transfer operation with the expected memo, whose hashed
`from` address equals the hashed caller-derived address, whose hashed `to`
address equals the hashed receiver-derived address, and whose amount equals
the expected amount; it returns `false` on any ledger error and when no
block has a matching transfer operation. -/
theorem claim2_verifyPayment_iff (ctx : Ctx) (caller receiver : Principal)
    (amount block memo : Nat) (resp : Except Unit QueryBlocksResponse) :
    verifyPayment ctx caller receiver amount block memo resp = true ↔
    ∃ qbr, resp = Except.ok qbr ∧
      ∃ b ∈ qbr.blocks, ∃ op t,
        b.transaction.operation = some op ∧ op.Transfer = some t ∧
        b.transaction.memo = memo ∧
        ctx.hashAddr (some (ctx.binFromPrincipal caller)) = ctx.hashAddr (some t.fromAddr) ∧
        ctx.hashAddr (some (ctx.binFromPrincipal receiver)) = ctx.hashAddr (some t.toAddr) ∧
        amount = t.amount.e8s := by
  cases resp with
  | error e => simp [verifyPayment]
  | ok qbr =>
    simp only [verifyPayment, List.find?_isSome]
    constructor
    · rintro ⟨b, hb, hm⟩
      exact ⟨qbr, rfl, b, hb, (matchesTransfer_iff ctx caller receiver amount memo b).mp hm⟩
    · rintro ⟨qbr', heq, b, hb, hrest⟩
      cases heq
      exact ⟨b, hb, (matchesTransfer_iff ctx caller receiver amount memo b).mpr hrest⟩

/-- Claim C1: in every reachable state (any trace executed from the initial
state), a completed order held in the persisted order store exists only
because some earlier `completePurchase` event succeeded for it: at that
point `verifyPayment` returned `true` for that event's sender (the buyer),
seller, amount and memo, the pending order existed under that memo, and the
very same step removed it (so the removal happened exactly once, by the
atomic remove of that step). -/
theorem claim1_completed_order_provenance (ctx : Ctx) (tr : List Event)
    (buyer : Principal) (o : Order)
    (h : (exec ctx initState tr).persistedOrders buyer = some o)
    (hc : o.status = OrderStatus.Completed) :
    ∃ pre e post, tr = pre ++ e :: post ∧
      completionEvent ctx (exec ctx initState pre) buyer o e := by
  rcases persisted_provenance ctx tr initState buyer o h with h' | hprov
  · exact absurd h' (by simp [initState])
  · exact hprov

/-- Witness for C1: the concrete trace `trace0` persists the completed
order `o0` for buyer 1, and the theorem yields the completion event. -/
theorem claim1_witness :
    (exec ctx0 initState trace0).persistedOrders 1 = some o0 ∧
    o0.status = OrderStatus.Completed ∧
    ∃ pre e post, trace0 = pre ++ e :: post ∧
      completionEvent ctx0 (exec ctx0 initState pre) 1 o0 e :=
  ⟨by decide, by decide,
    claim1_completed_order_provenance ctx0 trace0 1 o0 (by decide) (by decide)⟩

/-- Claim C6: `createOrder` on a product id absent from the catalog fails
with `NotFound` and returns the state unchanged — no pending-order
reservation is created and no expiry timer is scheduled. -/
theorem claim6_createOrder_unknown_product (ctx : Ctx) (caller : Principal)
    (time : Nat) (id : String) (s : State)
    (h : s.productsStorage id = none) :
    createOrder ctx caller time id s =
      (Except.error (Message.NotFound
        ("cannot create the order: product=" ++ id ++ " not found")), s) := by
  simp [createOrder, h]

/-- Witness for C6: creating an order for the unknown product `"zz"` in the
initial state fails with `NotFound` and changes nothing. -/
theorem claim6_witness :
    initState.productsStorage "zz" = none ∧
    createOrder ctx0 1 0 "zz" initState =
      (Except.error (Message.NotFound
        ("cannot create the order: product=" ++ "zz" ++ " not found")), initState) :=
  ⟨rfl, claim6_createOrder_unknown_product ctx0 1 0 "zz" initState rfl⟩

/-- Counterexample to C3 as stated: with the pending order `ord1` in place
and a ledger error (so the verifier returns `false`), `completePurchase`
fails with an error of the `NotFound` kind — not with a
`PaymentVerificationFailed` error: the source's `Message` variant has no
such tag at all, and the spec's own error taxonomy (§7) lists
`PaymentVerificationFailed` as a kind distinct from `NotFound`. -/
theorem claim3_counterexample :
    (completePurchase ctx0 1 2 "p1" 500000000 7 6 (Except.error ()) s1).1 =
      CPOutcome.Err (Message.NotFound
        "cannot complete the purchase: cannot verify the payment, memo=6") := by
  decide

/-- Claim C3 (amended): whenever the payment verifier returns `false`,
`completePurchase` fails with a `NotFound`-tagged error whose message says
the payment could not be verified, and returns the state unchanged — in
particular the pending order stored under the correlation id is left
untouched. -/
theorem claim3_verify_false_leaves_pending (ctx : Ctx) (caller seller : Principal)
    (id : String) (price block memo : Nat) (resp : Except Unit QueryBlocksResponse)
    (s : State)
    (hv : verifyPayment ctx caller seller price block memo resp = false) :
    completePurchase ctx caller seller id price block memo resp s =
      (CPOutcome.Err (Message.NotFound
        ("cannot complete the purchase: cannot verify the payment, memo=" ++ toString memo)),
       s) := by
  simp [completePurchase, hv]

/-- Witness for C3 (amended): a concrete failed verification leaves `s1`
unchanged. -/
theorem claim3_witness :
    verifyPayment ctx0 1 2 500000000 7 6 (Except.error ()) = false ∧
    completePurchase ctx0 1 2 "p1" 500000000 7 6 (Except.error ()) s1 =
      (CPOutcome.Err (Message.NotFound
        ("cannot complete the purchase: cannot verify the payment, memo=" ++ toString 6)),
       s1) :=
  ⟨rfl, claim3_verify_false_leaves_pending ctx0 1 2 "p1" 500000000 7 6 (Except.error ()) s1 rfl⟩

/-- Claim C4: a pending order is resolved (removed and returned) at most
once.  If the expiry path fires first, it gets the order and every
subsequent `completePurchase` for that memo returns no `Ok`; if the
completion path succeeds first, the expiry callback's remove finds the
memo absent. -/
theorem claim4_resolve_at_most_once (ctx : Ctx) (caller seller : Principal)
    (id : String) (price block memo : Nat) (resp : Except Unit QueryBlocksResponse)
    (ord : Order) (s : State)
    (h : s.pendingOrders memo = some ord) :
    ((discardByTimeoutFire memo s).1 = some ord ∧
      ∀ o : Order,
        (completePurchase ctx caller seller id price block memo resp
          (discardByTimeoutFire memo s).2).1 ≠ CPOutcome.Ok o) ∧
    (∀ (o : Order) (s' : State),
      completePurchase ctx caller seller id price block memo resp s = (CPOutcome.Ok o, s') →
      (discardByTimeoutFire memo s').1 = none) := by
  constructor
  · constructor
    · simpa [discardByTimeoutFire] using h
    · intro o
      have hnone : (discardByTimeoutFire memo s).2.pendingOrders memo = none := by
        simp [discardByTimeoutFire]
      by_cases hv : verifyPayment ctx caller seller price block memo resp = true
      · simp [completePurchase, hv, hnone]
      · simp [completePurchase, hv]
  · intro o s' heq
    rcases completePurchase_spec ctx caller seller id price block memo resp s with
      ⟨ord', product, hv, hp, hq, hspec⟩ | ⟨hno, _⟩
    · rw [hspec] at heq
      have hs' : s' =
          { s with
            pendingOrders := mapRemove s.pendingOrders memo,
            productsStorage := mapInsert s.productsStorage product.id
              { product with soldAmount := product.soldAmount + 1 },
            persistedOrders := mapInsert s.persistedOrders caller
              { ord' with status := OrderStatus.Completed, paid_at_block := some block } } :=
        (congrArg Prod.snd heq).symm
      rw [hs']
      simp [discardByTimeoutFire]
    · exact absurd (congrArg Prod.fst heq) (by simpa using hno o)

/-- Witness for C4: instantiated at the concrete reserved state `s1`
(pending order `ord1` under memo 6), with the valid ledger response
`resp0`. -/
theorem claim4_witness :
    s1.pendingOrders 6 = some ord1 ∧
    (((discardByTimeoutFire 6 s1).1 = some ord1 ∧
      ∀ o : Order,
        (completePurchase ctx0 1 2 "p1" 500000000 7 6 resp0
          (discardByTimeoutFire 6 s1).2).1 ≠ CPOutcome.Ok o) ∧
    (∀ (o : Order) (s' : State),
      completePurchase ctx0 1 2 "p1" 500000000 7 6 resp0 s1 = (CPOutcome.Ok o, s') →
      (discardByTimeoutFire 6 s').1 = none)) :=
  ⟨by decide, claim4_resolve_at_most_once ctx0 1 2 "p1" 500000000 7 6 resp0 ord1 s1 (by decide)⟩

/-- Claim C5: the reservation TTL constant is 120 seconds, and once the
expiry timer has fired for a memo the pending order is gone for good: after
any further events that do not re-create that correlation id, a
`completePurchase` for it fails with `NotFound` and changes nothing — even
when payment verification succeeds. -/
theorem claim5_expiry_is_permanent (ctx : Ctx) (caller seller : Principal)
    (id : String) (price block memo : Nat) (resp : Except Unit QueryBlocksResponse)
    (ord : Order) (s : State) (tr : List Event)
    (hord : s.pendingOrders memo = some ord)
    (htr : ∀ e ∈ tr, createsMemo ctx memo e = false)
    (hv : verifyPayment ctx caller seller price block memo resp = true) :
    ORDER_RESERVATION_PERIOD = 120 ∧
    (discardByTimeoutFire memo s).1 = some ord ∧
    (exec ctx (discardByTimeoutFire memo s).2 tr).pendingOrders memo = none ∧
    completePurchase ctx caller seller id price block memo resp
        (exec ctx (discardByTimeoutFire memo s).2 tr) =
      (CPOutcome.Err (Message.NotFound
        ("cannot complete the purchase: there is no pending order with id=" ++ id)),
       exec ctx (discardByTimeoutFire memo s).2 tr) := by
  have hnone : (discardByTimeoutFire memo s).2.pendingOrders memo = none := by
    simp [discardByTimeoutFire]
  have hnone' := pendingNone_preserved_exec ctx memo tr _ htr hnone
  refine ⟨rfl, by simpa [discardByTimeoutFire] using hord, hnone', ?_⟩
  simp [completePurchase, hv, hnone']

/-- Witness for C5: memo 6 expires in the concrete state `s1`; after a
further (failing) completion attempt, a completion with the fully valid
ledger response `resp0` still fails `NotFound`. -/
theorem claim5_witness :
    s1.pendingOrders 6 = some ord1 ∧
    (∀ e ∈ [Event.complete 1 2 "p1" 500000000 7 6 resp0], createsMemo ctx0 6 e = false) ∧
    verifyPayment ctx0 1 2 500000000 7 6 resp0 = true ∧
    (ORDER_RESERVATION_PERIOD = 120 ∧
     (discardByTimeoutFire 6 s1).1 = some ord1 ∧
     (exec ctx0 (discardByTimeoutFire 6 s1).2
        [Event.complete 1 2 "p1" 500000000 7 6 resp0]).pendingOrders 6 = none ∧
     completePurchase ctx0 1 2 "p1" 500000000 7 6 resp0
         (exec ctx0 (discardByTimeoutFire 6 s1).2
           [Event.complete 1 2 "p1" 500000000 7 6 resp0]) =
       (CPOutcome.Err (Message.NotFound
         ("cannot complete the purchase: there is no pending order with id=" ++ "p1")),
        exec ctx0 (discardByTimeoutFire 6 s1).2
          [Event.complete 1 2 "p1" 500000000 7 6 resp0])) :=
  ⟨by decide, by decide, by decide,
    claim5_expiry_is_permanent ctx0 1 2 "p1" 500000000 7 6 resp0 ord1 s1
      [Event.complete 1 2 "p1" 500000000 7 6 resp0]
      (by decide) (by decide) (by decide)⟩

/-- Claim C7: a successful `completePurchase` bumps the sold amount of the
product whose id it was given by exactly 1 (leaving every other product's
record untouched), while any non-successful outcome — verification failure,
missing pending order, or the rolled-back trap — and the expiry path leave
the whole catalog unchanged, so `soldAmount` is never incremented by a
failed or expired purchase attempt. -/
theorem claim7_soldAmount_increment (ctx : Ctx) (caller seller : Principal)
    (id : String) (price block memo : Nat) (resp : Except Unit QueryBlocksResponse)
    (s : State) (r : CPOutcome) (s' : State)
    (h : completePurchase ctx caller seller id price block memo resp s = (r, s')) :
    (∀ o, r = CPOutcome.Ok o →
      ∃ product, s.productsStorage id = some product ∧
        s'.productsStorage product.id =
          some { product with soldAmount := product.soldAmount + 1 } ∧
        ∀ k, k ≠ product.id → s'.productsStorage k = s.productsStorage k) ∧
    ((∀ o, r ≠ CPOutcome.Ok o) → s'.productsStorage = s.productsStorage) ∧
    (discardByTimeoutFire memo s).2.productsStorage = s.productsStorage := by
  rcases completePurchase_spec ctx caller seller id price block memo resp s with
    ⟨ord, product, hv, hp, hq, hspec⟩ | ⟨hno, hstate⟩
  · rw [hspec] at h
    have hr : CPOutcome.Ok
        { ord with status := OrderStatus.Completed, paid_at_block := some block } = r :=
      congrArg Prod.fst h
    have hs' : s' =
        { s with
          pendingOrders := mapRemove s.pendingOrders memo,
          productsStorage := mapInsert s.productsStorage product.id
            { product with soldAmount := product.soldAmount + 1 },
          persistedOrders := mapInsert s.persistedOrders caller
            { ord with status := OrderStatus.Completed, paid_at_block := some block } } :=
      (congrArg Prod.snd h).symm
    refine ⟨?_, ?_, rfl⟩
    · intro o _
      refine ⟨product, hq, ?_, ?_⟩
      · rw [hs']; simp
      · intro k hk
        rw [hs']
        exact mapInsert_ne _ _ _ _ hk
    · intro hnone
      exact absurd hr.symm (hnone _)
  · have hr : (completePurchase ctx caller seller id price block memo resp s).1 = r :=
      congrArg Prod.fst h
    have hs' : (completePurchase ctx caller seller id price block memo resp s).2 = s' :=
      congrArg Prod.snd h
    refine ⟨?_, ?_, rfl⟩
    · intro o ho
      exact absurd (hr.trans ho) (hno o)
    · intro _
      rw [← hs', hstate]

/-- Witness for C7: the concrete completed purchase of `"p1"` in `s1`. -/
theorem claim7_witness :
    completePurchase ctx0 1 2 "p1" 500000000 7 6 resp0 s1 =
      (completePurchase ctx0 1 2 "p1" 500000000 7 6 resp0 s1) ∧
    ((∀ o, (completePurchase ctx0 1 2 "p1" 500000000 7 6 resp0 s1).1 = CPOutcome.Ok o →
      ∃ product, s1.productsStorage "p1" = some product ∧
        (completePurchase ctx0 1 2 "p1" 500000000 7 6 resp0 s1).2.productsStorage product.id =
          some { product with soldAmount := product.soldAmount + 1 } ∧
        ∀ k, k ≠ product.id →
          (completePurchase ctx0 1 2 "p1" 500000000 7 6 resp0 s1).2.productsStorage k =
            s1.productsStorage k) ∧
    ((∀ o, (completePurchase ctx0 1 2 "p1" 500000000 7 6 resp0 s1).1 ≠ CPOutcome.Ok o) →
      (completePurchase ctx0 1 2 "p1" 500000000 7 6 resp0 s1).2.productsStorage =
        s1.productsStorage) ∧
    (discardByTimeoutFire 6 s1).2.productsStorage = s1.productsStorage) :=
  ⟨rfl, claim7_soldAmount_increment ctx0 1 2 "p1" 500000000 7 6 resp0 s1
    (completePurchase ctx0 1 2 "p1" 500000000 7 6 resp0 s1).1
    (completePurchase ctx0 1 2 "p1" 500000000 7 6 resp0 s1).2 rfl⟩

/-- Counterexample to C8 as stated: after `trace0`, buyer 1's recorded
completed order is `o0`; after the longer trace `trace8` — which appends a
second successful purchase by the same buyer — the store holds only the new
order `o8` and no longer holds `o0`: the per-buyer order store is
overwritten, not appended to. -/
theorem claim8_counterexample :
    (exec ctx0 initState trace0).persistedOrders 1 = some o0 ∧
    (exec ctx0 initState trace8).persistedOrders 1 = some o8 ∧
    ¬ (exec ctx0 initState trace8).persistedOrders 1 = some o0 := by
  refine ⟨by decide, by decide, by decide⟩

/-- Claim C8 (amended): `persistedOrders` is a map keyed by the buyer's
principal holding a single order.  A successful `completePurchase` stores
the newly completed order as the calling buyer's recorded order —
overwriting whatever was recorded for that buyer before — and leaves every
other buyer's record unchanged. -/
theorem claim8_persisted_overwrite (ctx : Ctx) (caller seller : Principal)
    (id : String) (price block memo : Nat) (resp : Except Unit QueryBlocksResponse)
    (s : State) (o : Order) (s' : State)
    (h : completePurchase ctx caller seller id price block memo resp s = (CPOutcome.Ok o, s')) :
    s'.persistedOrders caller = some o ∧
    ∀ p, p ≠ caller → s'.persistedOrders p = s.persistedOrders p := by
  rcases completePurchase_spec ctx caller seller id price block memo resp s with
    ⟨ord, product, hv, hp, hq, hspec⟩ | ⟨hno, _⟩
  · rw [hspec] at h
    have ho : CPOutcome.Ok
        { ord with status := OrderStatus.Completed, paid_at_block := some block } =
        CPOutcome.Ok o := congrArg Prod.fst h
    have hs' : s' =
        { s with
          pendingOrders := mapRemove s.pendingOrders memo,
          productsStorage := mapInsert s.productsStorage product.id
            { product with soldAmount := product.soldAmount + 1 },
          persistedOrders := mapInsert s.persistedOrders caller
            { ord with status := OrderStatus.Completed, paid_at_block := some block } } :=
      (congrArg Prod.snd h).symm
    constructor
    · rw [hs']
      simpa using congrArg some (CPOutcome.Ok.inj ho)
    · intro p hpne
      rw [hs']
      exact mapInsert_ne _ _ _ _ hpne
  · exact absurd (congrArg Prod.fst h) (by simpa using hno o)

/-- Witness for C8 (amended): the second completed purchase of `trace8`,
run in the state reached by `trace0` extended with the second reservation. -/
theorem claim8_witness :
    completePurchase ctx0 1 2 "p1" 500000000 9 7 resp7
        (exec ctx0 initState (trace0 ++ [Event.create 1 10 "p1"])) =
      (CPOutcome.Ok o8,
       exec ctx0 initState trace8) ∧
    ((exec ctx0 initState trace8).persistedOrders 1 = some o8 ∧
     ∀ p, p ≠ 1 → (exec ctx0 initState trace8).persistedOrders p =
       (exec ctx0 initState (trace0 ++ [Event.create 1 10 "p1"])).persistedOrders p) :=
  ⟨rfl,
    claim8_persisted_overwrite ctx0 1 2 "p1" 500000000 9 7 resp7
      (exec ctx0 initState (trace0 ++ [Event.create 1 10 "p1"])) o8
      (exec ctx0 initState trace8) rfl⟩

/-- Counterexample to C9 as stated: `payloadEmpty` has every required field
empty, yet `addProduct` succeeds — it returns `Ok` and inserts the product
into the catalog; no `InvalidPayload` failure occurs. -/
theorem claim9_counterexample :
    (addProduct 1 "px" payloadEmpty initState).1 = Except.ok productEmpty ∧
    (addProduct 1 "px" payloadEmpty initState).2.productsStorage "px" = some productEmpty := by
  refine ⟨rfl, by decide⟩

/-- Claim C9 (amended): `addProduct` performs no per-field validation: for
every candid-decoded payload — including one whose required fields are all
empty — it succeeds, inserting a product with the supplied fresh id,
`soldAmount = 0` and `seller = caller`.  Its only guard (payload not an
object, or an object with no keys) is unreachable for a decoded
`ProductPayload` record, and even that guard would return a
`NotFound`-tagged error (`"invalid payoad"`), not `InvalidPayload`; nothing
is ever thrown. -/
theorem claim9_addProduct_never_validates (caller : Principal) (freshId : String)
    (payload : ProductPayload) (s : State) :
    addProduct caller freshId payload s =
      (Except.ok (productOf caller freshId payload),
       { s with productsStorage :=
          mapInsert s.productsStorage freshId (productOf caller freshId payload) }) := by
  simp [addProduct, objectKeysLength, productOf]

/-- Claim C10: for a product id present in the catalog, `updateProduct`
replaces the stored record wholesale with the caller-supplied payload —
including its `seller` and `soldAmount` fields, with no ownership check
(the operation does not even inspect the caller), so any caller can
reassign a product's seller or set its sold amount arbitrarily. -/
theorem claim10_updateProduct_replaces (payload p : Product) (s : State)
    (h : s.productsStorage payload.id = some p) (hid : p.id = payload.id) :
    updateProduct payload s =
      (Except.ok payload,
       { s with productsStorage := mapInsert s.productsStorage payload.id payload }) ∧
    (updateProduct payload s).2.productsStorage payload.id = some payload ∧
    ((updateProduct payload s).2.productsStorage payload.id).map Product.seller =
      some payload.seller ∧
    ((updateProduct payload s).2.productsStorage payload.id).map Product.soldAmount =
      some payload.soldAmount := by
  have heq : updateProduct payload s =
      (Except.ok payload,
       { s with productsStorage := mapInsert s.productsStorage p.id payload }) := by
    simp [updateProduct, h]
  rw [hid] at heq
  refine ⟨heq, ?_, ?_, ?_⟩ <;> rw [heq] <;> simp

/-- Witness for C10: updating `"p1"` (stored as `product1` after `trace0`'s
first event) with `productNew` reassigns seller 2 to seller 99 and sets
`soldAmount` to 777. -/
theorem claim10_witness :
    (exec ctx0 initState [Event.add 2 "p1" payload0]).productsStorage "p1" = some product1 ∧
    product1.id = "p1" ∧
    (updateProduct productNew (exec ctx0 initState [Event.add 2 "p1" payload0]) =
      (Except.ok productNew,
       { exec ctx0 initState [Event.add 2 "p1" payload0] with
          productsStorage := mapInsert
            (exec ctx0 initState [Event.add 2 "p1" payload0]).productsStorage "p1" productNew }) ∧
     (updateProduct productNew (exec ctx0 initState [Event.add 2 "p1" payload0])).2.productsStorage "p1" =
       some productNew ∧
     ((updateProduct productNew (exec ctx0 initState [Event.add 2 "p1" payload0])).2.productsStorage "p1").map
        Product.seller = some productNew.seller ∧
     ((updateProduct productNew (exec ctx0 initState [Event.add 2 "p1" payload0])).2.productsStorage "p1").map
        Product.soldAmount = some productNew.soldAmount) :=
  ⟨by decide, by decide,
    claim10_updateProduct_replaces productNew product1
      (exec ctx0 initState [Event.add 2 "p1" payload0]) (by decide) (by decide)⟩

end Marketplace
